import Mathlib

/-
Verification development for the velo-rift repository.

Shallow embedding conventions:
* Rust strings and paths are modelled as lists of UTF-8 bytes (`Bytes`),
  so prefix tests and hashing match the byte-level source code.
* The BLAKE3 content digest is an external library call; it is modelled as
  an abstract digest type `D` together with a function `hash : Bytes → D`.
  Claims that need collision-freedom take injectivity of `hash` as an
  explicit hypothesis (the standard idealisation of a cryptographic hash).
* File systems are modelled as finite maps; the crash-atomic
  temp-file-plus-rename write pattern is modelled either as an atomic map
  update (CAS blobs) or as an explicit two-step operation list (journal),
  depending on what the claim is about.
-/

/-- A byte (the embedding does not depend on the 0..255 bound). -/
abbrev Byte := Nat

/-- A byte string: contents of files, and UTF-8 bytes of Rust strings/paths. -/
abbrev Bytes := List Byte

/-- UTF-8 byte list of a path; synonym used where the source has a path. -/
abbrev PathB := Bytes

/-- Byte-level test that `p` starts with `pat`, as Rust `str::starts_with`. -/
def hasPre : PathB → PathB → Bool
  | [], _ => true
  | _ :: _, [] => false
  | a :: as, b :: bs => a == b && hasPre as bs

/-- FNV-1a inner step from `vrift-ipc/src/lib.rs::fnv1a_hash`:
`hash ^= byte; hash = hash.wrapping_mul(FNV_PRIME)` on `u64`. -/
def fnv1a_step (h b : Nat) : Nat := ((h ^^^ b) * 0x100000001b3) % 2 ^ 64

/-- FNV-1a 64-bit hash over the UTF-8 bytes of a string, translated from
`vrift-ipc/src/lib.rs::fnv1a_hash` (offset `0xcbf29ce484222325`,
prime `0x100000001b3`, wrapping 64-bit arithmetic). -/
def fnv1a_hash (s : Bytes) : Nat := s.foldl fnv1a_step 0xcbf29ce484222325

/-- POSIX errno values used by the shim (Linux numbering); the `err` name
prefix avoids clashing with Lean's builtin `EIO`. -/
def errENOENT : Nat := 2

def errEIO : Nat := 5

def errEXDEV : Nat := 18

def errEISDIR : Nat := 21

/-- Linux `open` flag bits used by `open_impl`'s write test. -/
def O_WRONLY : Nat := 1

def O_RDWR : Nat := 2

def O_TRUNC : Nat := 512

-- ============================================================================
-- CAS (`velo-cas/src/lib.rs`)
-- ============================================================================

/-- Error type of `velo-cas/src/lib.rs::CasError`. `io` models the `Io`
variant; the file-system model here never raises it. -/
inductive CasError (D : Type) where
  | io
  | notFound (hash : D)
  | hashMismatch (expected actual : D)
  deriving DecidableEq

/-- State of one CAS root directory: the set of readable blob files, as pairs
of the digest naming the file and the file's byte content. The on-disk layout
`root/hh/<64-hex>` names each blob by the hex of its digest, and hex encoding
is injective, so the store is keyed by the digest itself. `.tmp` temp files
are transient (`store` renames them away atomically) and are not part of the
visible state. -/
abbrev CasFs (D : Type) := List (D × Bytes)

/-- Content of the blob file named by digest `h`, if that file exists. -/
def lookupBlob {D : Type} [DecidableEq D] (fs : CasFs D) (h : D) : Option Bytes :=
  (fs.find? (fun p => p.1 = h)).map (fun p => p.2)

namespace CasStore

variable {D : Type} [DecidableEq D]

/-- Translated from `CasStore::store`: compute the digest; if the target blob
file already exists, return the digest without touching the store (dedup
no-op); otherwise write the data and atomically rename it to its final name
(modelled as adding the blob file in one step). Returns the new store state
and the digest. -/
def store (hash : Bytes → D) (fs : CasFs D) (data : Bytes) : CasFs D × D :=
  let h := hash data
  if (lookupBlob fs h).isSome then (fs, h)
  else ((h, data) :: fs, h)

/-- Translated from `CasStore::get`: fail with `NotFound` if the blob file
does not exist; read it fully; recompute the digest; fail with
`HashMismatch` if it differs from the requested digest; else return the
bytes. -/
def get (hash : Bytes → D) (fs : CasFs D) (h : D) : Except (CasError D) Bytes :=
  match lookupBlob fs h with
  | none => .error (CasError.notFound h)
  | some data =>
      let actual := hash data
      if actual = h then .ok data
      else .error (CasError.hashMismatch h actual)

/-- Translated from `CasStore::exists`: pure existence check of the blob
file (the spec's `has`). -/
def existsBlob (fs : CasFs D) (h : D) : Bool := (lookupBlob fs h).isSome

/-- Translated from `CasStore::stats`: walks the fan-out directories and
counts regular blob files (temp `.tmp` files are excluded; in this model they
never persist) and their total size. Returns `(blob_count, total_bytes)`. -/
def stats (fs : CasFs D) : Nat × Nat :=
  (fs.length, (fs.map (fun p => p.2.length)).sum)

end CasStore

/-- Number of blob files whose file name is the digest `h`. -/
def countBlobs {D : Type} [DecidableEq D] (fs : CasFs D) (h : D) : Nat :=
  (fs.filter (fun p => p.1 = h)).length

/-- CAS integrity invariant (spec §4.1 (C1)): the file name of any readable
blob equals the hash of its contents. -/
def CasInv {D : Type} (hash : Bytes → D) (fs : CasFs D) : Prop :=
  ∀ p ∈ fs, hash p.2 = p.1

-- ============================================================================
-- Manifest vnodes and the mmap stat-cache entry (`vrift-ipc/src/lib.rs`)
-- ============================================================================

/-- Modelled from the spec: the `vrift-manifest` crate is not under `src/`
(only its callers are). Per spec §3, **VnodeEntry** is a record with
`digest, size:u64, mtime:u64, mode:u32`, and flags distinguishing
directory/symlink; the shim accesses the fields `content_hash`, `size`,
`mtime`, `mode` and the predicates `is_dir`/`is_symlink`. As with
`MmapStatEntry`, bit 0 of `flags` marks a directory and bit 1 a symlink. -/
structure VnodeEntry (D : Type) where
  content_hash : D
  size : Nat
  mtime : Nat
  mode : Nat
  flags : Nat
  deriving DecidableEq

/-- Modelled from the spec: directory test on the flags bits. -/
def VnodeEntry.is_dir {D : Type} (e : VnodeEntry D) : Bool := e.flags &&& 1 ≠ 0

/-- Modelled from the spec: symlink test on the flags bits. -/
def VnodeEntry.is_symlink {D : Type} (e : VnodeEntry D) : Bool := e.flags &&& 2 ≠ 0

/-- Modelled from the spec: `VnodeEntry::new_file(hash, size, mtime, mode)`
as called by `close_impl` and `velo-cli`; builds a *File* vnode, so neither
the directory nor the symlink flag is set. -/
def VnodeEntry.new_file {D : Type} (h : D) (size mtime mode : Nat) : VnodeEntry D :=
  { content_hash := h, size := size, mtime := mtime, mode := mode, flags := 0 }

/-- Translated from `vrift-ipc/src/lib.rs::MmapStatEntry`: one slot of the
shared-memory stat cache (`path_hash = 0` marks an empty slot). -/
structure MmapStatEntry where
  path_hash : Nat
  size : Nat
  mtime : Int
  mtime_nsec : Int
  mode : Nat
  flags : Nat
  deriving DecidableEq

/-- Translated from `MmapStatEntry::is_empty`. -/
def MmapStatEntry.is_empty (e : MmapStatEntry) : Bool := e.path_hash == 0

/-- Translated from `MmapStatEntry::is_dir`: `(flags & 0x01) != 0`. -/
def MmapStatEntry.is_dir (e : MmapStatEntry) : Bool := e.flags &&& 0x01 ≠ 0

/-- Translated from `MmapStatEntry::is_symlink`: `(flags & 0x02) != 0`. -/
def MmapStatEntry.is_symlink (e : MmapStatEntry) : Bool := e.flags &&& 0x02 ≠ 0

-- ============================================================================
-- Wire protocol (`vrift-ipc/src/lib.rs`)
-- ============================================================================

/-- Translated from `vrift-ipc/src/lib.rs::DirEntry`. -/
structure DirEntry where
  name : Bytes
  is_dir : Bool
  deriving DecidableEq

/-- Translated from `vrift-ipc/src/lib.rs::VeloRequest`, the daemon wire
protocol's request enum, with exactly the source's variants. Strings are
modelled as byte lists and the `[u8; 32]` digest as the abstract `D`. -/
inductive VeloRequest (D : Type) where
  | Handshake (client_version : Bytes)
  | Status
  | Spawn (command : List Bytes) (env : List (Bytes × Bytes)) (cwd : Bytes)
  | CasInsert (hash : D) (size : Nat)
  | CasGet (hash : D)
  | Protect (path : Bytes) (immutable : Bool) (owner : Option Bytes)
  | ManifestGet (path : Bytes)
  | ManifestUpsert (path : Bytes) (entry : VnodeEntry D)
  | ManifestListDir (path : Bytes)
  deriving DecidableEq

/-- Translated from `vrift-ipc/src/lib.rs::VeloResponse`, with exactly the
source's variants. -/
inductive VeloResponse (D : Type) where
  | HandshakeAck (server_version : Bytes)
  | StatusAck (status : Bytes)
  | SpawnAck (pid : Nat)
  | CasAck
  | CasFound (size : Nat)
  | CasNotFound
  | ManifestAck (entry : Option (VnodeEntry D))
  | ManifestListAck (entries : List DirEntry)
  | ProtectAck
  | Error (msg : Bytes)
  deriving DecidableEq

/-- One tag per constructor of `VeloRequest`, used to reason about which
variants the request type offers. -/
inductive RequestKind where
  | handshake | status | spawn | casInsert | casGet | protect
  | manifestGet | manifestUpsert | manifestListDir
  deriving DecidableEq

/-- Constructor tag of a request. -/
def VeloRequest.kindOf {D : Type} : VeloRequest D → RequestKind
  | .Handshake _ => .handshake
  | .Status => .status
  | .Spawn _ _ _ => .spawn
  | .CasInsert _ _ => .casInsert
  | .CasGet _ => .casGet
  | .Protect _ _ _ => .protect
  | .ManifestGet _ => .manifestGet
  | .ManifestUpsert _ _ => .manifestUpsert
  | .ManifestListDir _ => .manifestListDir

/-- Source name of each request constructor. -/
def RequestKind.name : RequestKind → String
  | .handshake => "Handshake"
  | .status => "Status"
  | .spawn => "Spawn"
  | .casInsert => "CasInsert"
  | .casGet => "CasGet"
  | .protect => "Protect"
  | .manifestGet => "ManifestGet"
  | .manifestUpsert => "ManifestUpsert"
  | .manifestListDir => "ManifestListDir"

/-- All request constructor tags. -/
def allRequestKinds : List RequestKind :=
  [.handshake, .status, .spawn, .casInsert, .casGet, .protect,
   .manifestGet, .manifestUpsert, .manifestListDir]

/-- Whether the request enum offers a variant with the given source name. -/
def offersRequestName (n : String) : Bool :=
  allRequestKinds.any (fun k => k.name == n)

/-- One tag per constructor of `VeloResponse`. -/
inductive ResponseKind where
  | handshakeAck | statusAck | spawnAck | casAck | casFound | casNotFound
  | manifestAck | manifestListAck | protectAck | error
  deriving DecidableEq

/-- Constructor tag of a response. -/
def VeloResponse.kindOf {D : Type} : VeloResponse D → ResponseKind
  | .HandshakeAck _ => .handshakeAck
  | .StatusAck _ => .statusAck
  | .SpawnAck _ => .spawnAck
  | .CasAck => .casAck
  | .CasFound _ => .casFound
  | .CasNotFound => .casNotFound
  | .ManifestAck _ => .manifestAck
  | .ManifestListAck _ => .manifestListAck
  | .ProtectAck => .protectAck
  | .Error _ => .error

/-- Source name of each response constructor. -/
def ResponseKind.name : ResponseKind → String
  | .handshakeAck => "HandshakeAck"
  | .statusAck => "StatusAck"
  | .spawnAck => "SpawnAck"
  | .casAck => "CasAck"
  | .casFound => "CasFound"
  | .casNotFound => "CasNotFound"
  | .manifestAck => "ManifestAck"
  | .manifestListAck => "ManifestListAck"
  | .protectAck => "ProtectAck"
  | .error => "Error"

/-- All response constructor tags. -/
def allResponseKinds : List ResponseKind :=
  [.handshakeAck, .statusAck, .spawnAck, .casAck, .casFound, .casNotFound,
   .manifestAck, .manifestListAck, .protectAck, .error]

/-- The twelve request variant names the specification lists for the wire
protocol (spec §4.4). -/
def specClaimedRequestNames : List String :=
  ["Handshake", "Status", "CasInsert", "CasGet", "Protect", "ManifestGet",
   "ManifestUpsert", "ManifestListDir", "ManifestRemove", "ManifestRename",
   "ManifestReingest", "Spawn"]

-- ============================================================================
-- Shim: stat hot path (`vrift-shim/src/syscalls/stat.rs`)
-- ============================================================================

/-- Modelled from the spec: `ShimState::psfs_applicable` lives in the shim's
`state` module, which is not under `src/`. Per spec §4.5 path routing, a path
is in the VFS domain iff it starts with the configured virtual prefix. -/
def psfs_applicable (vpfx path : PathB) : Bool := hasPre vpfx path

/-- The caller-visible fields of `struct stat` that the shim writes. The
buffer is zeroed first (`ptr::write_bytes(buf, 0, 1)`), so these are the only
nonzero fields. -/
structure StatBuf where
  st_size : Int
  st_mode : Nat
  st_mtime : Int
  st_dev : Nat
  st_nlink : Nat
  st_ino : Nat
  deriving DecidableEq

/-- How `stat_impl` fills the stat buffer on a Hot-Stat-Cache (mmap) hit:
`st_mode = entry.mode as u16` (a plain truncating cast of the entry's mode —
no file-type bits are derived from `entry.flags`), `st_dev = 0x56524654`,
`st_nlink = 1`, `st_ino = fnv1a_hash(path)`. -/
def statFillMmap (path : PathB) (e : MmapStatEntry) : StatBuf :=
  { st_size := (e.size : Int)
    st_mode := e.mode % 2 ^ 16
    st_mtime := e.mtime
    st_dev := 0x56524654
    st_nlink := 1
    st_ino := fnv1a_hash path }

/-- How `stat_impl` fills the stat buffer on the IPC `ManifestGet` fallback;
same shape, from a manifest vnode (`entry.mtime as i64`, `entry.mode as
u16`). -/
def statFillManifest {D : Type} (path : PathB) (e : VnodeEntry D) : StatBuf :=
  { st_size := (e.size : Int)
    st_mode := e.mode % 2 ^ 16
    st_mtime := (e.mtime : Int)
    st_dev := 0x56524654
    st_nlink := 1
    st_ino := fnv1a_hash path }

/-- Translated from `vrift-shim/src/syscalls/stat.rs::stat_impl`. The mmap
catalog lookup and the daemon query are passed in as functions (`mmap_lookup`
and `ShimState::query_manifest` live in modules not under `src/`); what is
embedded is the dispatch and the buffer the shim writes. `none` means
fallback to the real syscall; `some (buf, rc)` means the shim wrote `buf` and
returned `rc`. -/
def stat_impl {D : Type} (vpfx : PathB) (cache : PathB → Option MmapStatEntry)
    (manifest : PathB → Option (VnodeEntry D)) (path : PathB) :
    Option (StatBuf × Int) :=
  if ¬ psfs_applicable vpfx path then none
  else
    match cache path with
    | some e => some (statFillMmap path e, 0)
    | none =>
        match manifest path with
        | some e => some (statFillManifest path e, 0)
        | none => none

-- ============================================================================
-- Shim: open / close (`vrift-shim/src/lib.rs`)
-- ============================================================================

/-- Translated from `vrift-shim/src/lib.rs::OpenFile`: the per-descriptor
record kept in `ShimState::open_fds` for copy-on-write opens. -/
structure OpenFile where
  vpath : PathB
  original_path : PathB
  deriving DecidableEq

/-- The `open_fds` table: descriptor number to `OpenFile`. -/
abbrev FdTable := List (Int × OpenFile)

/-- `HashMap::get`-style lookup in the fd table. -/
def fdLookup (t : FdTable) (fd : Int) : Option OpenFile :=
  (t.find? (fun p => p.1 = fd)).map (fun p => p.2)

/-- `HashMap::remove`-style removal from the fd table. -/
def fdRemove (t : FdTable) (fd : Int) : FdTable :=
  t.filter (fun p => p.1 ≠ fd)

/-- Observable outcome of `open_impl`. `passthrough` forwards the call to the
real `open` untouched; `errnoFail e` sets errno `e` and returns `-1`;
`virtualFd c` returns a temp-file descriptor whose backing file holds the
blob bytes `c`; `cowOpen` is the copy-on-write write path: break-link, real
open, and the descriptor recorded in `open_fds` under `vpath`. -/
inductive OpenOutcome (D : Type) where
  | passthrough
  | errnoFail (e : Nat)
  | virtualFd (content : Bytes)
  | cowOpen (vpath : PathB) (original : PathB)
  deriving DecidableEq

/-- Translated from `vrift-shim/src/lib.rs::open_impl` (lines 406–472). For a
path under the VFS prefix the manifest is queried with the prefix stripped;
on a *File* hit whose blob loads from CAS the call returns a temp-file
descriptor filled with the blob content; a *Directory* hit fails with
`EISDIR`. When the manifest has no entry, or the CAS load fails, control
falls through: a write-mode open under the prefix takes the copy-on-write
path, anything else is passed through to the real `open`. (Temp-file
creation is modelled as succeeding.) -/
def open_impl {D : Type} [DecidableEq D] (hash : Bytes → D) (vpfx : PathB)
    (manifest : PathB → Option (VnodeEntry D)) (cas : CasFs D)
    (path : PathB) (flags : Nat) : OpenOutcome D :=
  let is_write := (flags &&& (O_WRONLY ||| O_RDWR ||| O_TRUNC)) != 0
  let inVfs := hasPre vpfx path
  let firstHit : Option (OpenOutcome D) :=
    if inVfs then
      match manifest (path.drop vpfx.length) with
      | some entry =>
          if entry.is_dir then some (.errnoFail errEISDIR)
          else
            match CasStore.get hash cas entry.content_hash with
            | .ok content => some (.virtualFd content)
            | .error _ => none
      | none => none
    else none
  match firstHit with
  | some r => r
  | none =>
      if is_write && inVfs then .cowOpen (path.drop vpfx.length) path
      else .passthrough

/-- Metadata-plus-content view of a physical file, as produced by
`fs::metadata` and `fs::read` in `close_impl` (`metadata.len()` equals the
length of the data read). -/
structure PhysFile where
  data : Bytes
  mtime : Nat
  mode : Nat
  deriving DecidableEq

/-- Translated from `vrift-shim/src/lib.rs::close_impl` (lines 478–509): the
descriptor's entry is removed from `open_fds`; if one was present, the file
at its `original_path` is read, its BLAKE3 digest computed, and a
`ManifestUpsert` with a fresh *File* vnode (new digest, size, mtime, mode) is
sent to the daemon. The CAS store is passed through untouched — `close_impl`
never calls `CasStore::store`. Returns the new fd table, the (unchanged) CAS
state, and the list of IPC requests sent. -/
def close_impl {D : Type} [DecidableEq D] (hash : Bytes → D)
    (phys : PathB → Option PhysFile) (fds : FdTable) (cas : CasFs D)
    (fd : Int) : FdTable × CasFs D × List (VeloRequest D) :=
  let removed := fdLookup fds fd
  let fds' := fdRemove fds fd
  match removed with
  | none => (fds', cas, [])
  | some file =>
      match phys file.original_path with
      | none => (fds', cas, [])
      | some pf =>
          let h := hash pf.data
          let entry := VnodeEntry.new_file h pf.data.length pf.mtime pf.mode
          (fds', cas, [VeloRequest.ManifestUpsert file.vpath entry])

-- ============================================================================
-- Shim: rename (`vrift-shim/src/syscalls/misc.rs`)
-- ============================================================================

/-- Modelled from the spec: the shim's `ipc` module
(`sync_ipc_manifest_rename`) is not under `src/`; spec §4.4 lists the request
variant *ManifestRename{old,new}* that it sends. -/
inductive ShimIpcMsg where
  | manifestRename (oldPath newPath : PathB)
  deriving DecidableEq

/-- Translated from `vrift-shim/src/syscalls/misc.rs::rename_impl` (lines
99–132). `ack` models whether `sync_ipc_manifest_rename` reports success.
Result: `(ret, errno, sent)` where `ret = none` means the call falls through
to the real `rename`, `ret = some rc` means the shim returned `rc`; `errno`
is the errno the shim set, and `sent` the IPC messages issued. A rename whose
endpoints straddle the VFS boundary returns `-1` with `EXDEV` and issues no
message and no file-system operation; a VFS-to-VFS rename sends
`ManifestRename` and returns `0` when acked (falling through on IPC
failure); a fully physical rename is passed through. -/
def rename_impl (vpfx : PathB) (ack : Bool) (oldp newp : PathB) :
    Option Int × Option Nat × List ShimIpcMsg :=
  let oin := psfs_applicable vpfx oldp
  let nin := psfs_applicable vpfx newp
  if oin != nin then (some (-1), some errEXDEV, [])
  else if oin && nin then
    (if ack then some 0 else none, none, [.manifestRename oldp newp])
  else (none, none, [])

-- ============================================================================
-- Reingest journal (`vrift-vdird/src/journal.rs`)
-- ============================================================================

/-- Translated from `vrift-vdird/src/journal.rs::JournalEntry`: intent record
for one pending reingest. `cas_hash = some _` means the CAS insert completed
and the manifest update is still pending. -/
structure JournalEntry (D : Type) where
  vpath : PathB
  temp_path : PathB
  cas_hash : Option D
  started_at : Nat
  deriving DecidableEq

/-- The journal's in-memory `HashMap<String, JournalEntry>`, as an
association list keyed by virtual path (insertion replaces the key's previous
binding, as `HashMap::insert` does). -/
abbrev JEntries (D : Type) := List (PathB × JournalEntry D)

/-- `HashMap::get`. -/
def entriesLookup {D : Type} (m : JEntries D) (k : PathB) : Option (JournalEntry D) :=
  (m.find? (fun p => p.1 = k)).map (fun p => p.2)

/-- `HashMap::insert` (replaces any existing binding of the key). -/
def entriesInsert {D : Type} (m : JEntries D) (k : PathB) (e : JournalEntry D) : JEntries D :=
  (k, e) :: m.filter (fun p => p.1 ≠ k)

/-- `HashMap::remove`. -/
def entriesRemove {D : Type} (m : JEntries D) (k : PathB) : JEntries D :=
  m.filter (fun p => p.1 ≠ k)

/-- Content of a file that may hold a serialized journal. `encoded m` is the
rkyv serialization of the entry map `m`; `garbage` stands for any byte string
that is not the complete encoding of a map — including the empty byte string
and partial prefixes of an encoding — and therefore fails to deserialize
(rkyv serialization is modelled abstractly as a lossless injective encoding,
which is the external library's contract). -/
inductive JContent (D : Type) where
  | encoded (m : JEntries D)
  | garbage
  deriving DecidableEq

/-- `rkyv::from_bytes`: recovers the map from its encoding and fails on
anything else. -/
def rkyvDecode {D : Type} : JContent D → Option (JEntries D)
  | .encoded m => some m
  | .garbage => none

/-- A directory of files as seen by the journal code: path to content. -/
abbrev Disk (D : Type) := PathB → Option (JContent D)

/-- A file-system effect occurring during `ReingestJournal::flush`.
`createFile p` is `File::create`: the file at `p` comes into being empty
(zero bytes are not a valid rkyv archive, hence `garbage` content);
`renameFile src dst` atomically moves `src` over `dst`; `fdFlush p c ok` is
the deferred `BufWriter` drop-flush: when it succeeds (`ok = true`) it
writes the buffered encoding `c` through the still-open descriptor into the
file that by then lives at `p` (the rename moved the inode, and the
descriptor follows the inode, not the path); when it fails the error is
silently discarded and the file is left as it was. -/
inductive FsOp (D : Type) where
  | createFile (p : PathB)
  | renameFile (src dst : PathB)
  | fdFlush (p : PathB) (c : JContent D) (ok : Bool)
  deriving DecidableEq

/-- Effect of one file-system operation on the directory contents. -/
def applyOp {D : Type} (disk : Disk D) : FsOp D → Disk D
  | .createFile p => fun q => if q = p then some JContent.garbage else disk q
  | .renameFile src dst =>
      fun q => if q = dst then disk src else if q = src then none else disk q
  | .fdFlush p c ok =>
      if ok then fun q => if q = p then some c else disk q else disk

/-- Effect of a sequence of file-system operations. -/
def applyOps {D : Type} (disk : Disk D) (ops : List (FsOp D)) : Disk D :=
  ops.foldl applyOp disk

/-- Sibling temporary path used by `flush` (`self.path.with_extension("tmp")`),
modelled as appending `".tmp"`; the property the proofs use is that it is a
path distinct from the journal path itself. -/
def tmpOf (p : PathB) : PathB := p ++ [46, 116, 109, 112]

namespace ReingestJournal

/-- Translated from `ReingestJournal::flush` (lines 155–171), as the sequence
of file-system effects in the order the code performs them. The new encoding
is written via `write_all` into a `BufWriter` over the freshly created
temporary file, but the writer is never flushed before `fs::rename`: for a
journal smaller than the writer's 8 KiB buffer nothing has reached the file
when the still-empty temporary file is renamed over the journal file. The
buffered bytes land in the renamed file only when the writer is dropped,
after the function has already committed to returning the rename's result;
`dropOk` says whether that deferred write succeeds — its error is ignored
either way, and no `sync_all` is ever issued. (A journal larger than the
buffer would make the pre-rename content a partial prefix, which equally
fails to deserialize.) -/
def flush {D : Type} (jpath : PathB) (entries : JEntries D) (dropOk : Bool) :
    List (FsOp D) :=
  [.createFile (tmpOf jpath),
   .renameFile (tmpOf jpath) jpath,
   .fdFlush jpath (.encoded entries) dropOk]

/-- Translated from `ReingestJournal::record` (lines 73–89): insert an entry
for `vpath` with `cas_hash = None` and the current time, then run `flush`
before returning. Returns the new in-memory map and the file-system
operations performed; `dropOk` parameterises the deferred drop-flush inside
`flush`. -/
def record {D : Type} (jpath : PathB) (entries : JEntries D)
    (vpath temp_path : PathB) (now : Nat) (dropOk : Bool) :
    JEntries D × List (FsOp D) :=
  let e : JournalEntry D :=
    { vpath := vpath, temp_path := temp_path, cas_hash := none, started_at := now }
  let m := entriesInsert entries vpath e
  (m, flush jpath m dropOk)

/-- Translated from `ReingestJournal::set_cas_hash` (lines 92–99): if an
entry for `vpath` exists, fill in its CAS digest and run `flush` before
returning; otherwise do nothing. -/
def set_cas_hash {D : Type} (jpath : PathB) (entries : JEntries D)
    (vpath : PathB) (h : D) (dropOk : Bool) : JEntries D × List (FsOp D) :=
  match entriesLookup entries vpath with
  | some e =>
      let m := entriesInsert entries vpath { e with cas_hash := some h }
      (m, flush jpath m dropOk)
  | none => (entries, [])

/-- Translated from `ReingestJournal::complete` (lines 102–108): remove the
entry for `vpath` and, if one was removed, run `flush` before returning. -/
def complete {D : Type} (jpath : PathB) (entries : JEntries D)
    (vpath : PathB) (dropOk : Bool) : JEntries D × List (FsOp D) :=
  if (entriesLookup entries vpath).isSome then
    (entriesRemove entries vpath, flush jpath (entriesRemove entries vpath) dropOk)
  else (entries, [])

/-- State of the journal file as `ReingestJournal::open` can find it:
absent, present but unreadable (`File::open` fails), or present with some
content (a failed `read_to_end` is the `content` case with whatever bytes
were obtained, since the read error is swallowed with `.ok()`). -/
inductive JFileState (D : Type) where
  | missing
  | openFailed
  | content (c : JContent D)
  deriving DecidableEq

/-- Translated from `ReingestJournal::open` (lines 40–70): a missing file, a
file that cannot be opened, and content that does not deserialize all yield
an empty entry map ("starting fresh"); otherwise the deserialized map is
used. The function always returns `Ok`. -/
def openJournal {D : Type} : JFileState D → Except Unit (JEntries D)
  | .missing => .ok []
  | .openFailed => .ok []
  | .content c => .ok ((rkyvDecode c).getD [])

end ReingestJournal

-- ============================================================================
-- Supporting lemmas
-- ============================================================================

lemma lookupBlob_mem {D : Type} [DecidableEq D] {fs : CasFs D} {h : D} {data : Bytes}
    (hl : lookupBlob fs h = some data) : (h, data) ∈ fs := by
  unfold lookupBlob at hl
  cases hf : fs.find? (fun p => p.1 = h) with
  | none => simp [hf] at hl
  | some p =>
      have hmem := List.mem_of_find?_eq_some hf
      have hp : p.1 = h := by simpa using List.find?_some hf
      have hd : p.2 = data := by simpa [hf] using hl
      have hpair : p = (h, data) := by
        cases p
        simp_all
      rw [hpair] at hmem
      exact hmem

lemma lookupBlob_cons_self {D : Type} [DecidableEq D] (fs : CasFs D) (h : D) (data : Bytes) :
    lookupBlob ((h, data) :: fs) h = some data := by
  simp [lookupBlob, List.find?_cons_of_pos]

lemma countBlobs_eq_zero_of_lookup_none {D : Type} [DecidableEq D] {fs : CasFs D} {h : D}
    (hl : lookupBlob fs h = none) : countBlobs fs h = 0 := by
  unfold lookupBlob at hl
  cases hf : fs.find? (fun p => p.1 = h) with
  | some p => simp [hf] at hl
  | none =>
      have hall := List.find?_eq_none.mp hf
      unfold countBlobs
      have : fs.filter (fun p => p.1 = h) = [] := by
        apply List.filter_eq_nil_iff.mpr
        intro a ha
        exact hall a ha
      simp [this]

lemma countBlobs_pos_of_lookup_some {D : Type} [DecidableEq D] {fs : CasFs D} {h : D}
    {data : Bytes} (hl : lookupBlob fs h = some data) : 0 < countBlobs fs h := by
  have hmem := lookupBlob_mem hl
  unfold countBlobs
  have : (h, data) ∈ fs.filter (fun p => p.1 = h) := by
    apply List.mem_filter.mpr
    exact ⟨hmem, by simp⟩
  exact List.length_pos.mpr (fun hnil => by simp [hnil] at this)

-- ============================================================================
-- Claim theorems: CAS
-- ============================================================================

/-- C2: for every byte string `b`, `CAS.get(CAS.put(b))` succeeds and returns
exactly `b` — storing a blob and retrieving it by the returned digest
round-trips the bytes. Holds for any store satisfying the CAS integrity
invariant, under the standard collision-freedom idealisation of the content
hash. -/
theorem c2_cas_put_get_roundtrip {D : Type} [DecidableEq D] (hash : Bytes → D)
    (hinj : Function.Injective hash) (fs : CasFs D) (hinv : CasInv hash fs)
    (b : Bytes) :
    CasStore.get hash (CasStore.store hash fs b).1 (hash b) = Except.ok b := by
  unfold CasStore.store
  cases hl : lookupBlob fs (hash b) with
  | none =>
      simp only [hl, Option.isSome_none, Bool.false_eq_true, if_false]
      unfold CasStore.get
      rw [lookupBlob_cons_self]
      simp
  | some c =>
      simp only [hl, Option.isSome_some, if_true]
      have hmem := lookupBlob_mem hl
      have hc : hash c = hash b := hinv (hash b, c) hmem
      have hcb : c = b := hinj hc
      unfold CasStore.get
      rw [hl, hcb]
      simp

/-- Witness for C2 at a concrete input (digest type instantiated to byte
strings, content hash to the identity, which is injective). -/
theorem c2_cas_put_get_roundtrip_witness :
    CasStore.get (fun b : Bytes => b) (CasStore.store (fun b : Bytes => b) [] [1, 2]).1 [1, 2] =
      Except.ok [1, 2] :=
  c2_cas_put_get_roundtrip (fun b : Bytes => b) (fun _ _ hp => hp) []
    (fun p hp => by simp at hp) [1, 2]

/-- C3: `CAS.put` is idempotent — every call with the same bytes returns the
same digest, repeating the call leaves the store untouched (already-existing
target file makes `put` a no-op), exactly one blob file for `b` exists
afterwards, and `stats` counts that blob once. -/
theorem c3_cas_put_idempotent {D : Type} [DecidableEq D] (hash : Bytes → D)
    (fs : CasFs D) (b : Bytes) (hcount : countBlobs fs (hash b) ≤ 1) :
    (CasStore.store hash fs b).2 = hash b ∧
    CasStore.store hash (CasStore.store hash fs b).1 b =
      ((CasStore.store hash fs b).1, hash b) ∧
    countBlobs (CasStore.store hash fs b).1 (hash b) = 1 ∧
    (CasStore.stats (CasStore.store hash (CasStore.store hash fs b).1 b).1).1 =
      (CasStore.stats (CasStore.store hash fs b).1).1 := by
  have hsnd : (CasStore.store hash fs b).2 = hash b := by
    unfold CasStore.store
    cases hl : lookupBlob fs (hash b) <;> simp [hl]
  have hlook : (lookupBlob (CasStore.store hash fs b).1 (hash b)).isSome = true := by
    unfold CasStore.store
    cases hl : lookupBlob fs (hash b) with
    | none => simp [hl, lookupBlob_cons_self]
    | some c => simp [hl]
  have hidem : CasStore.store hash (CasStore.store hash fs b).1 b =
      ((CasStore.store hash fs b).1, hash b) := by
    conv_lhs => rw [CasStore.store]
    simp only [hlook, if_true]
  have hcnt : countBlobs (CasStore.store hash fs b).1 (hash b) = 1 := by
    unfold CasStore.store
    cases hl : lookupBlob fs (hash b) with
    | none =>
        have h0 := countBlobs_eq_zero_of_lookup_none hl
        simp only [hl, Option.isSome_none, Bool.false_eq_true, if_false]
        unfold countBlobs at h0 ⊢
        simp [List.filter_cons, h0]
    | some c =>
        have hpos := countBlobs_pos_of_lookup_some hl
        simp only [hl, Option.isSome_some, if_true]
        omega
  exact ⟨hsnd, hidem, hcnt, by rw [hidem]⟩

/-- Witness for C3 at a concrete input. -/
theorem c3_cas_put_idempotent_witness :
    (CasStore.store (fun b : Bytes => b) [] [7]).2 = [7] ∧
    CasStore.store (fun b : Bytes => b) (CasStore.store (fun b : Bytes => b) [] [7]).1 [7] =
      ((CasStore.store (fun b : Bytes => b) [] [7]).1, [7]) ∧
    countBlobs (CasStore.store (fun b : Bytes => b) [] [7]).1 [7] = 1 ∧
    (CasStore.stats (CasStore.store (fun b : Bytes => b)
        (CasStore.store (fun b : Bytes => b) [] [7]).1 [7]).1).1 =
      (CasStore.stats (CasStore.store (fun b : Bytes => b) [] [7]).1).1 :=
  c3_cas_put_idempotent (fun b : Bytes => b) [] [7] (by decide)

/-- C4: `CAS.get(d)` fails with `NotFound` when no blob file for `d` exists;
otherwise it reads the file, recomputes the digest of the bytes read, fails
with `HashMismatch` whenever the recomputed digest differs from `d`, and
returns the bytes exactly when they hash to `d`. -/
theorem c4_cas_get_error_cases {D : Type} [DecidableEq D] (hash : Bytes → D)
    (fs : CasFs D) (d : D) :
    (lookupBlob fs d = none →
      CasStore.get hash fs d = Except.error (CasError.notFound d)) ∧
    (∀ data, lookupBlob fs d = some data → hash data ≠ d →
      CasStore.get hash fs d = Except.error (CasError.hashMismatch d (hash data))) ∧
    (∀ data, lookupBlob fs d = some data → hash data = d →
      CasStore.get hash fs d = Except.ok data) := by
  refine ⟨fun hn => ?_, fun data hs hne => ?_, fun data hs he => ?_⟩
  · unfold CasStore.get
    rw [hn]
  · unfold CasStore.get
    rw [hs]
    simp [hne]
  · unfold CasStore.get
    rw [hs]
    simp [he]

/-- Witness for C4, exercising all three cases of the theorem on one
concrete store (a well-formed blob, a corrupt blob, and a missing digest). -/
theorem c4_cas_get_error_cases_witness :
    CasStore.get (fun b : Bytes => b) [([3], [9]), ([9], [9])] [5] =
      Except.error (CasError.notFound [5]) ∧
    CasStore.get (fun b : Bytes => b) [([3], [9]), ([9], [9])] [3] =
      Except.error (CasError.hashMismatch [3] [9]) ∧
    CasStore.get (fun b : Bytes => b) [([3], [9]), ([9], [9])] [9] =
      Except.ok [9] :=
  ⟨(c4_cas_get_error_cases (fun b : Bytes => b) [([3], [9]), ([9], [9])] [5]).1 rfl,
   (c4_cas_get_error_cases (fun b : Bytes => b) [([3], [9]), ([9], [9])] [3]).2.1 [9] rfl
     (by decide),
   (c4_cas_get_error_cases (fun b : Bytes => b) [([3], [9]), ([9], [9])] [9]).2.2 [9] rfl rfl⟩

-- ============================================================================
-- Claim theorems: wire protocol (C6)
-- ============================================================================

/-- C6 counterexample: the request enum does not offer `ManifestRemove`,
`ManifestRename` or `ManifestReingest` variants, although the claim lists all
three among the variants the type is supposed to offer exactly. -/
theorem c6_request_variants_counterexample :
    offersRequestName "ManifestRemove" = false ∧
    offersRequestName "ManifestRename" = false ∧
    offersRequestName "ManifestReingest" = false ∧
    specClaimedRequestNames.contains "ManifestRemove" = true ∧
    specClaimedRequestNames.contains "ManifestRename" = true ∧
    specClaimedRequestNames.contains "ManifestReingest" = true := by
  decide

/-- C6 (amended): the daemon wire protocol's request type offers exactly the
variants Handshake, Status, Spawn, CasInsert, CasGet, Protect, ManifestGet,
ManifestUpsert and ManifestListDir, and the response type offers exactly the
Ack-style forms HandshakeAck, StatusAck, SpawnAck, CasAck, CasFound,
CasNotFound, ManifestAck, ManifestListAck, ProtectAck plus a generic
Error(string). -/
theorem c6_request_variants :
    (∀ r : VeloRequest Unit, r.kindOf ∈ allRequestKinds) ∧
    allRequestKinds.map RequestKind.name =
      ["Handshake", "Status", "Spawn", "CasInsert", "CasGet", "Protect",
       "ManifestGet", "ManifestUpsert", "ManifestListDir"] ∧
    (∀ s : VeloResponse Unit, s.kindOf ∈ allResponseKinds) ∧
    allResponseKinds.map ResponseKind.name =
      ["HandshakeAck", "StatusAck", "SpawnAck", "CasAck", "CasFound",
       "CasNotFound", "ManifestAck", "ManifestListAck", "ProtectAck",
       "Error"] := by
  refine ⟨fun r => ?_, rfl, fun s => ?_, rfl⟩
  · cases r <;> simp [VeloRequest.kindOf, allRequestKinds]
  · cases s <;> simp [VeloResponse.kindOf, allResponseKinds]

-- ============================================================================
-- Claim theorems: stat hot path (C7)
-- ============================================================================

/-- C7 counterexample: a cache entry whose flags mark it a directory but
whose `mode` field is a bare permission value `0o755` is reported by
`stat_impl` with `st_mode = 0o755`, which contains no file-type bits at all
(`st_mode & S_IFMT = 0`) — the shim copies `entry.mode` verbatim and derives
no file-type bits from the entry's flags, contrary to the claim. -/
theorem c7_stat_mode_counterexample :
    (stat_impl (D := Unit) [47] (fun _ => some ⟨1, 4096, 7, 0, 0o755, 1⟩)
        (fun _ => none) [47, 97]).map (fun r => r.1.st_mode) = some 0o755 ∧
    0o755 &&& 0o170000 = 0 ∧
    MmapStatEntry.is_dir ⟨1, 4096, 7, 0, 0o755, 1⟩ = true := by
  decide

/-- C7 (amended): for every virtual path whose entry is found — in the mmap
stat cache, or via the `ManifestGet` IPC fallback — `stat_impl` fills the
caller's stat buffer with the entry's size, mtime, and its `mode` field
taken verbatim (truncated to 16 bits; no file-type bits are derived from the
entry's flags), and sets `st_dev = 0x56524654`, `st_nlink = 1`,
`st_ino = FNV-1a(path)`, then returns 0. -/
theorem c7_stat_hot_path {D : Type} (vpfx path : PathB)
    (cache : PathB → Option MmapStatEntry)
    (manifest : PathB → Option (VnodeEntry D)) :
    (∀ e, psfs_applicable vpfx path = true → cache path = some e →
      stat_impl vpfx cache manifest path =
        some (⟨(e.size : Int), e.mode % 2 ^ 16, e.mtime, 0x56524654, 1,
               fnv1a_hash path⟩, 0)) ∧
    (∀ v, psfs_applicable vpfx path = true → cache path = none →
      manifest path = some v →
      stat_impl vpfx cache manifest path =
        some (⟨(v.size : Int), v.mode % 2 ^ 16, (v.mtime : Int), 0x56524654, 1,
               fnv1a_hash path⟩, 0)) := by
  constructor
  · intro e happ hcache
    simp [stat_impl, happ, hcache, statFillMmap]
  · intro v happ hcache hman
    simp [stat_impl, happ, hcache, hman, statFillManifest]

/-- Witness for C7, exercising both the mmap-hit branch and the IPC-fallback
branch at concrete inputs. -/
theorem c7_stat_hot_path_witness :
    stat_impl (D := Unit) [47] (fun _ => some ⟨1, 12, 7, 0, 420, 0⟩)
        (fun _ => none) [47, 97] =
      some (⟨(12 : Int), 420 % 2 ^ 16, (7 : Int), 0x56524654, 1,
             fnv1a_hash [47, 97]⟩, 0) ∧
    stat_impl (D := Unit) [47] (fun _ => none)
        (fun _ => some ⟨(), 12, 7, 420, 0⟩) [47, 97] =
      some (⟨(12 : Int), 420 % 2 ^ 16, (7 : Int), 0x56524654, 1,
             fnv1a_hash [47, 97]⟩, 0) :=
  ⟨(c7_stat_hot_path [47] [47, 97] (fun _ => some ⟨1, 12, 7, 0, 420, 0⟩)
      (fun _ => none)).1 ⟨1, 12, 7, 0, 420, 0⟩ rfl rfl,
   (c7_stat_hot_path [47] [47, 97] (fun _ => none)
      (fun _ => some ⟨(), 12, 7, 420, 0⟩)).2 ⟨(), 12, 7, 420, 0⟩ rfl rfl rfl⟩

-- ============================================================================
-- Claim theorems: open for reads (C8)
-- ============================================================================

/-- C8 counterexample: a read-only open of a virtual path that is absent from
the manifest is passed through to the real `open`, not failed with `ENOENT`;
likewise a manifest hit whose blob is missing from CAS is passed through,
not failed with `EIO`. -/
theorem c8_open_read_counterexample :
    open_impl (fun b : Bytes => b) [47, 118] (fun _ => none) ([] : CasFs Bytes)
        [47, 118, 97] 0 = OpenOutcome.passthrough ∧
    (OpenOutcome.passthrough : OpenOutcome Bytes) ≠ .errnoFail errENOENT ∧
    open_impl (fun b : Bytes => b) [47, 118]
        (fun _ => some (VnodeEntry.new_file [9] 2 0 420)) ([] : CasFs Bytes)
        [47, 118, 97] 0 = OpenOutcome.passthrough ∧
    (OpenOutcome.passthrough : OpenOutcome Bytes) ≠ .errnoFail errEIO := by
  decide

/-- C8 (amended): for a read-mode open of a virtual path: a manifest entry
that is a directory fails with errno `EISDIR`; a manifest entry whose blob
loads from CAS yields a descriptor backed by the blob's content; a path
absent from the manifest, or a manifest hit whose blob is missing or corrupt
in CAS, falls through to the real `open` (passthrough) instead of failing
with `ENOENT`/`EIO`. -/
theorem c8_open_read_dispatch {D : Type} [DecidableEq D] (hash : Bytes → D)
    (vpfx : PathB) (manifest : PathB → Option (VnodeEntry D)) (cas : CasFs D)
    (path : PathB) (flags : Nat) (hv : hasPre vpfx path = true)
    (hro : flags &&& (O_WRONLY ||| O_RDWR ||| O_TRUNC) = 0) :
    (manifest (path.drop vpfx.length) = none →
      open_impl hash vpfx manifest cas path flags = .passthrough) ∧
    (∀ entry, manifest (path.drop vpfx.length) = some entry →
      entry.is_dir = true →
      open_impl hash vpfx manifest cas path flags = .errnoFail errEISDIR) ∧
    (∀ entry err, manifest (path.drop vpfx.length) = some entry →
      entry.is_dir = false →
      CasStore.get hash cas entry.content_hash = .error err →
      open_impl hash vpfx manifest cas path flags = .passthrough) ∧
    (∀ entry content, manifest (path.drop vpfx.length) = some entry →
      entry.is_dir = false →
      CasStore.get hash cas entry.content_hash = .ok content →
      open_impl hash vpfx manifest cas path flags = .virtualFd content) := by
  refine ⟨fun hman => ?_, fun entry hman hdir => ?_,
          fun entry err hman hdir hget => ?_,
          fun entry content hman hdir hget => ?_⟩
  · simp [open_impl, hv, hro, hman]
  · simp [open_impl, hv, hman, hdir]
  · simp [open_impl, hv, hro, hman, hdir, hget]
  · simp [open_impl, hv, hman, hdir, hget]

/-- Witness for C8, exercising all four branches of the theorem at concrete
inputs (digest type: byte strings, hash: identity). -/
theorem c8_open_read_dispatch_witness :
    open_impl (fun b : Bytes => b) [47] (fun _ => none) ([] : CasFs Bytes)
        [47, 97] 0 = .passthrough ∧
    open_impl (fun b : Bytes => b) [47]
        (fun _ => some ⟨[9], 0, 0, 493, 1⟩) ([] : CasFs Bytes) [47, 97] 0 =
      .errnoFail errEISDIR ∧
    open_impl (fun b : Bytes => b) [47]
        (fun _ => some (VnodeEntry.new_file [9] 1 0 420)) ([] : CasFs Bytes)
        [47, 97] 0 = .passthrough ∧
    open_impl (fun b : Bytes => b) [47]
        (fun _ => some (VnodeEntry.new_file [9] 1 0 420)) [([9], [9])]
        [47, 97] 0 = .virtualFd [9] :=
  ⟨(c8_open_read_dispatch (fun b : Bytes => b) [47] (fun _ => none) [] [47, 97] 0
      rfl rfl).1 rfl,
   (c8_open_read_dispatch (fun b : Bytes => b) [47] (fun _ => some ⟨[9], 0, 0, 493, 1⟩)
      [] [47, 97] 0 rfl rfl).2.1 ⟨[9], 0, 0, 493, 1⟩ rfl (by decide),
   (c8_open_read_dispatch (fun b : Bytes => b) [47]
      (fun _ => some (VnodeEntry.new_file [9] 1 0 420)) [] [47, 97] 0 rfl rfl).2.2.1
      (VnodeEntry.new_file [9] 1 0 420) (CasError.notFound [9]) rfl (by decide) rfl,
   (c8_open_read_dispatch (fun b : Bytes => b) [47]
      (fun _ => some (VnodeEntry.new_file [9] 1 0 420)) [([9], [9])] [47, 97] 0 rfl
      rfl).2.2.2 (VnodeEntry.new_file [9] 1 0 420) [9] rfl (by decide) rfl⟩

-- ============================================================================
-- Claim theorems: rename boundary (C9)
-- ============================================================================

/-- C9: a rename with exactly one endpoint inside the virtual tree returns
`-1` with errno `EXDEV`, sends no IPC message and performs no file-system
operation (the shim returns before the real `rename` can run), so neither
side is mutated; a rename with both endpoints inside the virtual tree is
converted to a daemon `ManifestRename` request and returns `0` on ack. -/
theorem c9_rename_exdev (vpfx : PathB) (ack : Bool) (oldp newp : PathB) :
    (psfs_applicable vpfx oldp ≠ psfs_applicable vpfx newp →
      rename_impl vpfx ack oldp newp = (some (-1), some errEXDEV, [])) ∧
    (psfs_applicable vpfx oldp = true → psfs_applicable vpfx newp = true →
      ack = true →
      rename_impl vpfx ack oldp newp =
        (some 0, none, [ShimIpcMsg.manifestRename oldp newp])) := by
  constructor
  · intro hne
    have hb : (psfs_applicable vpfx oldp != psfs_applicable vpfx newp) = true := by
      simpa using hne
    simp [rename_impl, hb]
  · intro ho hn hack
    have hb : (psfs_applicable vpfx oldp != psfs_applicable vpfx newp) = false := by
      simp [ho, hn]
    simp [rename_impl, hb, ho, hn, hack]

/-- Witness for C9: a cross-boundary pair gets EXDEV with nothing sent, and a
fully virtual acked pair returns 0 with the `ManifestRename` message. -/
theorem c9_rename_exdev_witness :
    rename_impl [47, 118] true [47, 118, 97] [104] =
      (some (-1), some errEXDEV, []) ∧
    rename_impl [47, 118] true [47, 118, 97] [47, 118, 98] =
      (some 0, none, [ShimIpcMsg.manifestRename [47, 118, 97] [47, 118, 98]]) :=
  ⟨(c9_rename_exdev [47, 118] true [47, 118, 97] [104]).1 (by decide),
   (c9_rename_exdev [47, 118] true [47, 118, 97] [47, 118, 98]).2 rfl rfl rfl⟩

-- ============================================================================
-- Claim theorems: close-time reingest (C1)
-- ============================================================================

/-- C1 counterexample: closing descriptor 3, recorded as a writable open of a
virtual path whose staging file now holds the two bytes "hi", leaves the CAS
empty — `CAS.has` of the new content digest is `false` afterwards — and the
only request sent is a `ManifestUpsert`; no request stores the content in
CAS and no reingest request exists in the protocol, contrary to the claim. -/
theorem c1_close_counterexample :
    (close_impl (fun b : Bytes => b) (fun _ => some ⟨[104, 105], 5, 420⟩)
        [(3, ⟨[104], [118, 104]⟩)] ([] : CasFs Bytes) 3).2.1 = [] ∧
    CasStore.existsBlob
        ((close_impl (fun b : Bytes => b) (fun _ => some ⟨[104, 105], 5, 420⟩)
          [(3, ⟨[104], [118, 104]⟩)] ([] : CasFs Bytes) 3).2.1) [104, 105] =
      false ∧
    (close_impl (fun b : Bytes => b) (fun _ => some ⟨[104, 105], 5, 420⟩)
        [(3, ⟨[104], [118, 104]⟩)] ([] : CasFs Bytes) 3).2.2 =
      [VeloRequest.ManifestUpsert [104]
        (VnodeEntry.new_file [104, 105] 2 5 420)] := by
  decide

/-- C1 (amended): for every descriptor recorded as a writable (copy-on-write)
open of a virtual path, `close` removes the descriptor's entry from the
open-fd table, reads the resulting staging file, computes its content digest,
and sends a single `ManifestUpsert` carrying the virtual path and a *File*
vnode with the file's new size and new digest; the shim does not store the
content in CAS (the CAS state is returned unchanged) and sends no reingest
request. -/
theorem c1_close_reingest {D : Type} [DecidableEq D] (hash : Bytes → D)
    (phys : PathB → Option PhysFile) (fds : FdTable) (cas : CasFs D)
    (fd : Int) (f : OpenFile) (pf : PhysFile)
    (hfd : fdLookup fds fd = some f)
    (hphys : phys f.original_path = some pf) :
    close_impl hash phys fds cas fd =
      (fdRemove fds fd, cas,
       [VeloRequest.ManifestUpsert f.vpath
         (VnodeEntry.new_file (hash pf.data) pf.data.length pf.mtime pf.mode)]) := by
  simp [close_impl, hfd, hphys]

/-- Witness for C1 at the concrete input of the counterexample. -/
theorem c1_close_reingest_witness :
    close_impl (fun b : Bytes => b) (fun _ => some ⟨[104, 105], 5, 420⟩)
        [(3, ⟨[104], [118, 104]⟩)] ([] : CasFs Bytes) 3 =
      (fdRemove [(3, ⟨[104], [118, 104]⟩)] 3, ([] : CasFs Bytes),
       [VeloRequest.ManifestUpsert [104]
         (VnodeEntry.new_file [104, 105] 2 5 420)]) :=
  c1_close_reingest (fun b : Bytes => b) (fun _ => some ⟨[104, 105], 5, 420⟩)
    [(3, ⟨[104], [118, 104]⟩)] [] 3 ⟨[104], [118, 104]⟩ ⟨[104, 105], 5, 420⟩
    rfl rfl

-- ============================================================================
-- Claim theorems: journal durability (C5)
-- ============================================================================

/-- Directory state for the C5 failing scenario: the journal file at path
`[106]` holds the complete encoding of one already-completed entry. -/
def journalDisk0 : Disk Nat :=
  fun q =>
    if q = [106] then
      some (JContent.encoded [([120], ⟨[120], [121], some 9, 0⟩)])
    else none

/-- C5 (code bug, evaluated at the failing input): `ReingestJournal::flush`
renames the temporary file over the journal file *before* the `BufWriter`
holding the new encoding is flushed, contradicting the claim and the
function's own "Write atomically via temp file" comment. Calling `record` on
a journal whose file holds one completed entry performs
create-empty-temp, rename, deferred-drop-flush in that order; immediately
after the rename (the first two effects) the journal file is an empty file
that deserializes to nothing — neither the old content nor the complete new
encoding — so a crash in that window loses the whole journal; and when the
silently-ignored drop-flush fails, that empty file is the final state even
though `record` returned `Ok`, after which `open` discards the journal
wholesale. -/
theorem c5_journal_flush_window :
    applyOps journalDisk0
        ((ReingestJournal.record [106] [([120], ⟨[120], [121], some 9, 0⟩)]
          [97] [98] 5 true).2.take 2) [106] = some JContent.garbage ∧
    journalDisk0 [106] =
      some (JContent.encoded [([120], ⟨[120], [121], some 9, 0⟩)]) ∧
    (JContent.garbage : JContent Nat) ≠
      JContent.encoded [([120], ⟨[120], [121], some 9, 0⟩)] ∧
    (JContent.garbage : JContent Nat) ≠
      JContent.encoded (ReingestJournal.record [106]
        [([120], ⟨[120], [121], some 9, 0⟩)] [97] [98] 5 true).1 ∧
    applyOps journalDisk0
        (ReingestJournal.record [106] [([120], ⟨[120], [121], some 9, 0⟩)]
          [97] [98] 5 false).2 [106] = some JContent.garbage ∧
    ReingestJournal.openJournal (D := Nat) (.content .garbage) =
      Except.ok [] :=
  ⟨rfl, rfl, by decide, by decide, rfl, rfl⟩

-- ============================================================================
-- Claim theorems: journal open never fails (C10)
-- ============================================================================

/-- C10: `ReingestJournal::open` never fails because of a pre-existing
journal file that is unreadable or does not deserialize: it always returns
`Ok`, and both an unopenable file and content that fails to deserialize yield
a journal with an empty entry set, silently discarding whatever pending
recovery work the corrupt file recorded. -/
theorem c10_journal_open_total {D : Type} :
    (∀ st : ReingestJournal.JFileState D,
      ∃ m, ReingestJournal.openJournal st = Except.ok m) ∧
    ReingestJournal.openJournal (D := D) .openFailed = Except.ok [] ∧
    (∀ c : JContent D, rkyvDecode c = none →
      ReingestJournal.openJournal (.content c) = Except.ok []) := by
  refine ⟨fun st => ?_, rfl, fun c hc => ?_⟩
  · cases st with
    | missing => exact ⟨[], rfl⟩
    | openFailed => exact ⟨[], rfl⟩
    | content c => exact ⟨(rkyvDecode c).getD [], rfl⟩
  · simp [ReingestJournal.openJournal, hc]

/-- Witness for C10: applying the theorem to an unreadable file and to
garbage content (which fails deserialization). -/
theorem c10_journal_open_total_witness :
    ReingestJournal.openJournal (D := Nat) .openFailed = Except.ok [] ∧
    ReingestJournal.openJournal (D := Nat) (.content .garbage) = Except.ok [] :=
  ⟨(c10_journal_open_total (D := Nat)).2.1,
   (c10_journal_open_total (D := Nat)).2.2 .garbage rfl⟩
